import Mathlib

/-!
Verification development for the esp32 sunlight sensor firmware's data
buffering, persistence, and delivery subsystem.

The C sources are embedded shallowly:
* machine integers that never overflow in the modelled paths become `Int`/`Nat`;
* C arrays plus a count become Lean `List`s (the live prefix of the array);
* out-parameters become returned values;
* the function-pointer interfaces (`network_interface_t`, `buffer_interface_t`)
  become structures of pure functions / booleans describing the outcome of each
  external call;
* the `lux` float travels through every modelled function untouched (the
  buffering code never computes with it), so it is represented by an `Int`
  payload carried alongside the timestamp.
-/

namespace SunlightSensor

/-- A sensor reading: `reading_t` / `sensor_reading_t` / `sensor_data_t`
(`{ time_t timestamp; float lux; }`).  The `lux` field is opaque payload for
the whole subsystem, represented here by an `Int`. -/
structure Reading where
  timestamp : Int
  lux : Int
  deriving DecidableEq, Repr

/-- `reading_buffer_t`: a capacity plus the live readings (`buffer[0..count-1]`).
`count` of the C struct is `data.length`. -/
structure ReadingBuffer where
  capacity : Nat
  data : List Reading
  deriving DecidableEq, Repr

/-- `add_readings_to_buffer` from data_sender_core.c (lines 96-140).
Handles overflow by dropping the oldest readings already in the buffer, then
appends as many of the new readings as fit. -/
def add_readings_to_buffer (buffer : ReadingBuffer) (new_readings : List Reading) :
    ReadingBuffer :=
  if new_readings.length = 0 then buffer
  else
    let buf1 :=
      if buffer.capacity < buffer.data.length + new_readings.length then
        let overflow := buffer.data.length + new_readings.length - buffer.capacity
        if buffer.data.length ≤ overflow then
          { buffer with data := [] }
        else
          { buffer with data := buffer.data.drop overflow }
      else buffer
    let can_add := buf1.capacity - buf1.data.length
    { buf1 with data := buf1.data ++ new_readings.take can_add }

/-- The property the spec asserts of the surviving entries: the most recent
`min capacity (priorCount + incomingCount)` readings of the concatenation of
prior contents and incoming readings.  Stated from the spec's words, to be
compared against `add_readings_to_buffer`. -/
def unsentSurvivorsSpec (buffer : ReadingBuffer) (new_readings : List Reading) :
    List Reading :=
  let total := buffer.data.length + new_readings.length
  (buffer.data ++ new_readings).drop (total - min buffer.capacity total)

/-- `send_result_t` from data_sender_core.h. -/
inductive SendResult where
  | success
  | no_network
  | send_failed
  | no_data
  deriving DecidableEq, Repr

/-- `power_mode_t` from data_sender_core.h. -/
inductive PowerMode where
  | low
  | high
  deriving DecidableEq, Repr

/-- Observable calls made through `network_interface_t` during a send cycle
(log messages omitted; they carry no data). -/
inductive NetEvent where
  | connect
  | sync_time
  | send (payload : List Reading)
  | disconnect
  deriving DecidableEq, Repr

/-- The `network_interface_t` function-pointer struct, modelled by the outcome
of each external call: `is_connected` is the first `is_network_connected()`
answer, `connected_after_connect` the answer after `connect_network()`,
`send_ok` the result of `send_data` on a given payload. -/
structure NetworkModel where
  is_connected : Bool
  connected_after_connect : Bool
  should_sync_time : Int → Int → Bool
  send_ok : List Reading → Bool
  get_power_mode : PowerMode

/-- Result of one send cycle: the returned `send_result_t`, the two buffers,
the NTP bookkeeping value and the trace of network calls. -/
structure CycleResult where
  result : SendResult
  current : ReadingBuffer
  unsent : ReadingBuffer
  last_ntp_sync : Int
  events : List NetEvent
  deriving Repr

/-- `process_data_send_cycle` from data_sender_core.c (lines 16-94).
The three top-level branches mirror the C control flow: the early
`SEND_RESULT_NO_DATA` return, the `SEND_RESULT_NO_NETWORK` return taken when
the device was not connected and `connect_network()` did not help, and the
main path (time sync, send stored readings, send current readings, optional
power-saving disconnect). -/
def process_data_send_cycle (current unsent : ReadingBuffer) (now last_ntp_sync : Int)
    (net : NetworkModel) : CycleResult :=
  if current.data.length = 0 ∧ unsent.data.length = 0 then
    ⟨.no_data, current, unsent, last_ntp_sync, []⟩
  else if net.is_connected = false ∧ net.connected_after_connect = false then
    ⟨.no_network,
      if 0 < current.data.length then { current with data := [] } else current,
      if 0 < current.data.length then add_readings_to_buffer unsent current.data else unsent,
      last_ntp_sync,
      [NetEvent.connect]⟩
  else
    let connectEvents : List NetEvent := if net.is_connected then [] else [NetEvent.connect]
    let doSync := net.should_sync_time last_ntp_sync now
    let syncEvents : List NetEvent := if doSync then [NetEvent.sync_time] else []
    let last' := if doSync then now else last_ntp_sync
    let sendUnsentEvents : List NetEvent :=
      if 0 < unsent.data.length then [NetEvent.send unsent.data] else []
    let unsentOk := net.send_ok unsent.data
    let unsent1 :=
      if 0 < unsent.data.length then
        (if unsentOk then { unsent with data := [] } else unsent)
      else unsent
    let allSent1 := if 0 < unsent.data.length then unsentOk else true
    let sendCurrentEvents : List NetEvent :=
      if 0 < current.data.length then [NetEvent.send current.data] else []
    let currentOk := net.send_ok current.data
    let current1 := if 0 < current.data.length then { current with data := [] } else current
    let unsent2 :=
      if 0 < current.data.length then
        (if currentOk then unsent1 else add_readings_to_buffer unsent1 current.data)
      else unsent1
    let allSent2 := allSent1 && (if 0 < current.data.length then currentOk else true)
    let disconnectEvents : List NetEvent :=
      if net.get_power_mode = PowerMode.low then [NetEvent.disconnect] else []
    ⟨if allSent2 then .success else .send_failed, current1, unsent2, last',
      connectEvents ++ syncEvents ++ sendUnsentEvents ++ sendCurrentEvents ++ disconnectEvents⟩

/-- The payloads handed to `send_data`, in call order, extracted from a cycle's
event trace. -/
def sendPayloads (events : List NetEvent) : List (List Reading) :=
  events.filterMap fun e =>
    match e with
    | NetEvent.send p => some p
    | _ => none

/-- `buffer_result_t` from sensor_buffer_core.h. -/
inductive BufferResult where
  | success
  | full
  | error
  deriving DecidableEq, Repr

/-- `sensor_buffer_t`: capacity plus the live readings; the shared
`*current_count` of the C struct is `data.length`. -/
structure SensorBuffer where
  capacity : Nat
  data : List Reading
  deriving DecidableEq, Repr

/-- `add_sensor_reading` from sensor_buffer_core.c (lines 19-75).
`lockOk` is the outcome of `interface->acquire_buffer_lock()`; the NULL-pointer
checks of the C code have no counterpart in the list model.  If the buffer has
space the reading is stored at index `count` and `count` is incremented;
otherwise the buffer is left untouched and `BUFFER_RESULT_FULL` is returned
(the warning-counter logic only affects logging). -/
def add_sensor_reading (buffer : SensorBuffer) (timestamp lux_value : Int)
    (lockOk : Bool) : BufferResult × SensorBuffer :=
  if lockOk = false then (.error, buffer)
  else if buffer.data.length < buffer.capacity then
    (.success, { buffer with data := buffer.data ++ [⟨timestamp, lux_value⟩] })
  else
    (.full, buffer)

/-- `clear_sensor_buffer` from sensor_buffer_core.c (lines 114-120):
`*current_count = 0`. -/
def clear_sensor_buffer (buffer : SensorBuffer) : SensorBuffer :=
  { buffer with data := [] }

/-- One operation of the sample-buffer history: an `add_sensor_reading` call
(with the lock outcome of that call) or a drain (`clear_sensor_buffer`, as the
send task performs after copying the data out). -/
inductive SensorOp where
  | add (timestamp lux_value : Int) (lockOk : Bool)
  | drain
  deriving DecidableEq, Repr

/-- Apply one history operation to the sample buffer. -/
def applySensorOp (buffer : SensorBuffer) : SensorOp → SensorBuffer
  | SensorOp.add ts lux lockOk => (add_sensor_reading buffer ts lux lockOk).2
  | SensorOp.drain => clear_sensor_buffer buffer

/-- Run a whole history of appends and drains. -/
def runSensorOps (buffer : SensorBuffer) (ops : List SensorOp) : SensorBuffer :=
  ops.foldl applySensorOp buffer

/-- The relevant `esp_err_t` values returned by the HTTP / storage layers. -/
inductive EspErr where
  | ok
  | err_fail
  | invalid_arg
  | not_allowed
  | not_found
  | invalid_response
  | no_mem
  | invalid_state
  deriving DecidableEq, Repr

/-- The HTTP-status-to-`esp_err_t` mapping of `_send_json_payload_with_status`
in http.c (lines 156-183): 2xx is success, 400 is `ESP_ERR_INVALID_ARG`,
401/403 are `ESP_ERR_NOT_ALLOWED`, 404 is `ESP_ERR_NOT_FOUND`, 500/502/503 are
`ESP_ERR_INVALID_RESPONSE`, anything else is `ESP_FAIL`. -/
def http_status_to_err (status : Nat) : EspErr :=
  if 200 ≤ status ∧ status < 300 then .ok
  else if status = 400 then .invalid_arg
  else if status = 401 ∨ status = 403 then .not_allowed
  else if status = 404 then .not_found
  else if status = 500 ∨ status = 502 ∨ status = 503 then .invalid_response
  else .err_fail

/-- The retry loop shared by `send_sensor_data_with_retry` (task_send_data.c,
lines 246-273) and `send_readings_processor` (data_processor.c, lines 139-163):
`attempt` is the 1-based attempt number, `fuel` the number of attempts still
allowed, `send` the outcome of each attempt.  Returns the final success flag
and the number of attempts actually made.  `ESP_OK` stops with success;
`ESP_ERR_INVALID_ARG` / `ESP_ERR_NOT_ALLOWED` abort the loop; every other
error is retried while attempts remain. -/
def retry_attempts (send : Nat → EspErr) (attempt : Nat) : Nat → Bool × Nat
  | 0 => (false, 0)
  | fuel + 1 =>
    match send attempt with
    | EspErr.ok => (true, 1)
    | EspErr.invalid_arg => (false, 1)
    | EspErr.not_allowed => (false, 1)
    | _ =>
      let rest := retry_attempts send (attempt + 1) fuel
      (rest.1, rest.2 + 1)

/-- `MAX_HTTP_RETRY_ATTEMPTS` (task_send_data.c line 38, data_processor.c
line 23). -/
def MAX_HTTP_RETRY_ATTEMPTS : Nat := 3

/-- The send-with-retry operation: up to `MAX_HTTP_RETRY_ATTEMPTS` attempts
starting from attempt 1. -/
def send_sensor_data_with_retry (send : Nat → EspErr) : Bool × Nat :=
  retry_attempts send 1 MAX_HTTP_RETRY_ATTEMPTS

/-- `create_filtered_readings` from data_processor.c (lines 29-78) — the same
loop body as `create_corrected_readings` in task_send_data.c once the
correction offset is zero.  A reading is skipped when its timestamp is before
1704067200 (Jan 1 2024) or more than 3600 seconds after `now`; surviving
readings keep their relative order. -/
def create_filtered_readings (now : Int) : List Reading → List Reading
  | [] => []
  | r :: rest =>
    if r.timestamp < 1704067200 then create_filtered_readings now rest
    else if now + 3600 < r.timestamp then create_filtered_readings now rest
    else r :: create_filtered_readings now rest

/-- `send_readings_processor` from data_processor.c (lines 126-172): filter the
readings, treat an empty filtered set as success, otherwise run the retry
loop.  Allocation failure is out of scope (the list model cannot fail to
allocate). -/
def send_readings_processor (readings : List Reading) (now : Int)
    (send : Nat → EspErr) : Bool :=
  let filtered := create_filtered_readings now readings
  if filtered.length = 0 then true
  else (send_sensor_data_with_retry send).1

/-- The NVS namespace `sensor_data` as used by persistent_storage.c: the
`batch_count` key (`none` when `ESP_ERR_NVS_NOT_FOUND`) and the `batch_<i>`
blobs (`none` when absent or unreadable, i.e. a corrupted batch). -/
structure NvsStore where
  batch_count : Option Nat
  batches : Nat → Option (List Reading)

/-- A freshly erased `sensor_data` namespace: no counter, no batch blobs. -/
def empty_store : NvsStore :=
  ⟨none, fun _ => none⟩

/-- `persistent_storage_save_readings` from persistent_storage.c (lines
60-118): read the batch counter (defaulting to 0 when absent), write the
readings under `batch_N`, store the incremented counter, commit.  Writes are
assumed to succeed (no storage corruption); `count <= 0` is rejected with
`ESP_ERR_INVALID_ARG` and leaves the store untouched. -/
def persistent_storage_save_readings (st : NvsStore) (readings : List Reading) :
    EspErr × NvsStore :=
  if readings.length = 0 then (.invalid_arg, st)
  else
    let batch_count := st.batch_count.getD 0
    (.ok,
      { batch_count := some (batch_count + 1)
        batches := fun i => if i = batch_count then some readings else st.batches i })

/-- The loop of `persistent_storage_load_readings` (lines 156-181): walk the
given batch indices in order, skip (continue) a batch whose blob cannot be
read, stop (break) before a batch that would push the total beyond
`max_count`, and otherwise append the batch to the accumulator. -/
def load_batches (batches : Nat → Option (List Reading)) (max_count : Nat) :
    List Nat → List Reading → List Reading
  | [], acc => acc
  | i :: rest, acc =>
    match batches i with
    | none => load_batches batches max_count rest acc
    | some b =>
      if max_count < acc.length + b.length then acc
      else load_batches batches max_count rest (acc ++ b)

/-- `persistent_storage_load_readings` from persistent_storage.c (lines
120-187), on its `ESP_OK` path: the sequence of readings accumulated into the
caller's buffer (`loaded_count` is its length).  An absent counter means
nothing to load; otherwise batches `0 .. N-1` are visited in index order. -/
def persistent_storage_load_readings (st : NvsStore) (max_count : Nat) :
    List Reading :=
  match st.batch_count with
  | none => []
  | some n => load_batches st.batches max_count (List.range n) []

/-- `persistent_storage_clear_readings` from persistent_storage.c (lines
189-224): erase `batch_0 .. batch_{N-1}` and the counter. -/
def persistent_storage_clear_readings (st : NvsStore) : NvsStore :=
  let n := st.batch_count.getD 0
  ⟨none, fun i => if i < n then none else st.batches i⟩

/-- `persistent_storage_get_count` from persistent_storage.c (lines 226-264):
sum the sizes of the readable batches without loading them. -/
def persistent_storage_get_count (st : NvsStore) : Nat :=
  match st.batch_count with
  | none => 0
  | some n =>
    (List.range n).foldl (fun acc i => acc + ((st.batches i).map List.length).getD 0) 0

/-- Run a sequence of `persistent_storage_save_readings` calls. -/
def save_all (st : NvsStore) (batchList : List (List Reading)) : NvsStore :=
  batchList.foldl (fun s b => (persistent_storage_save_readings s b).2) st

/-- `PERSISTENT_STORAGE_MAX_READINGS` (the configured maximum, 960 readings ≈
4 hours at 15-second intervals). -/
def PERSISTENT_STORAGE_MAX_READINGS : Nat := 960

/-- The store invariant relating an `NvsStore` to the list of batches saved so
far: the counter equals the number of batches and `batch_i` holds the i-th
batch. -/
def StoreRepresents (st : NvsStore) (bs : List (List Reading)) : Prop :=
  st.batch_count.getD 0 = bs.length ∧
    ∀ (i : Nat) (x : List Reading), bs[i]? = some x → st.batches i = some x

/-- The two tiers of readings a `task_send_data` cycle can transmit:
persisted-store readings and live sample-buffer readings. -/
inductive Tier where
  | persisted
  | live
  deriving DecidableEq, Repr

/-- `send_stored_readings` from task_send_data.c (lines 322-378): if the store
holds readings, load them and send them (retry and timestamp correction are
summarised by the boolean outcome `sendOk`); clear the store only on success.
Returns the success flag, the new store and the transmissions performed. -/
def send_stored_readings (st : NvsStore) (sendOk : List Reading → Bool) :
    Bool × NvsStore × List (Tier × List Reading) :=
  if persistent_storage_get_count st = 0 then (true, st, [])
  else
    let loaded := persistent_storage_load_readings st PERSISTENT_STORAGE_MAX_READINGS
    if loaded.length = 0 then (true, st, [])
    else if sendOk loaded then
      (true, persistent_storage_clear_readings st, [(Tier.persisted, loaded)])
    else
      (false, st, [(Tier.persisted, loaded)])

/-- The connected branch of one `task_send_data` loop iteration
(task_send_data.c lines 538-584), after NTP/battery housekeeping: when the
previous cycle failed (`wifi_send_failed`), drain the persistent store first;
then drain the live buffer and send it; finally record
`wifi_send_failed = !send_success`.  Returns the new `wifi_send_failed` flag,
the new store, the drained live buffer and the transmissions in call order. -/
def task_send_cycle_connected (wifi_send_failed : Bool) (st : NvsStore)
    (live : List Reading) (sendOk : List Reading → Bool) :
    Bool × NvsStore × List Reading × List (Tier × List Reading) :=
  let storedStep :=
    if wifi_send_failed then send_stored_readings st sendOk
    else (true, st, [])
  let st1 := storedStep.2.1
  let storedEvents := storedStep.2.2
  let temp := live
  let liveEvents : List (Tier × List Reading) :=
    if 0 < temp.length then [(Tier.live, temp)] else []
  let send_success := if 0 < temp.length then sendOk temp else true
  (!send_success, st1, [], storedEvents ++ liveEvents)

/-- The tier tags of a task-cycle transmission trace, in call order. -/
def eventTiers (events : List (Tier × List Reading)) : List Tier :=
  events.map Prod.fst

/-- Concrete capacity-3 sample buffer scenario, step 1: append reading (1, 10)
to the empty buffer. -/
def c3_s1 : BufferResult × SensorBuffer :=
  add_sensor_reading ⟨3, []⟩ 1 10 true

/-- Step 2: append reading (2, 11). -/
def c3_s2 : BufferResult × SensorBuffer :=
  add_sensor_reading c3_s1.2 2 11 true

/-- Step 3: append reading (3, 12); the buffer is now full. -/
def c3_s3 : BufferResult × SensorBuffer :=
  add_sensor_reading c3_s2.2 3 12 true

/-- Step 4: append reading (4, 13) to the full buffer. -/
def c3_final : BufferResult × SensorBuffer :=
  add_sensor_reading c3_s3.2 4 13 true

/-- A persistent store holding one batch with a single reading, used to
exercise the three-tier scenarios. -/
def c7_store : NvsStore :=
  ⟨some 1, fun i => if i = 0 then some [⟨100, 1⟩] else none⟩

/-- A network in which the device is already connected, every send succeeds,
no time sync is due, and power mode keeps the connection up. -/
def c7_net : NetworkModel :=
  ⟨true, true, fun _ _ => false, fun _ => true, PowerMode.high⟩

/-- A network in which the device is already connected but every send fails. -/
def c2_net : NetworkModel :=
  ⟨true, true, fun _ _ => false, fun _ => false, PowerMode.low⟩

/-- A store with three recorded batches whose middle blob is unreadable
(corrupted). -/
def c8_store : NvsStore :=
  ⟨some 3, fun i =>
    if i = 0 then some [⟨1, 1⟩]
    else if i = 2 then some [⟨3, 3⟩, ⟨4, 4⟩]
    else none⟩

end SunlightSensor

namespace SunlightSensor

theorem add_readings_count_min (b : ReadingBuffer) (inc : List Reading)
    (hwf : b.data.length ≤ b.capacity) :
    (add_readings_to_buffer b inc).data.length =
      min b.capacity (b.data.length + inc.length) := by
  by_cases hne : inc.length = 0
  · have h0 : inc = [] := List.length_eq_zero.mp hne
    subst h0
    simp [add_readings_to_buffer, Nat.min_eq_right hwf]
  · simp only [add_readings_to_buffer, if_neg hne]
    by_cases hover : b.capacity < b.data.length + inc.length
    · rw [if_pos hover]
      by_cases hall : b.data.length ≤ b.data.length + inc.length - b.capacity
      · rw [if_pos hall]
        simp only [List.nil_append, List.length_take, List.length_nil]
        omega
      · rw [if_neg hall]
        simp only [List.length_append, List.length_take, List.length_drop]
        omega
    · rw [if_neg hover]
      simp only [List.length_append, List.length_take]
      omega

theorem unsentSurvivorsSpec_eq_drop (b : ReadingBuffer) (inc : List Reading) :
    unsentSurvivorsSpec b inc =
      (b.data ++ inc).drop (b.data.length + inc.length - b.capacity) := by
  simp only [unsentSurvivorsSpec]
  congr 1
  omega

theorem add_readings_keeps_recent (b : ReadingBuffer) (inc : List Reading)
    (hwf : b.data.length ≤ b.capacity) (hne : inc.length ≠ 0)
    (hle : inc.length ≤ b.capacity) :
    (add_readings_to_buffer b inc).data =
      (b.data ++ inc).drop (b.data.length + inc.length - b.capacity) := by
  simp only [add_readings_to_buffer, if_neg hne]
  by_cases hover : b.capacity < b.data.length + inc.length
  · rw [if_pos hover]
    by_cases hall : b.data.length ≤ b.data.length + inc.length - b.capacity
    · rw [if_pos hall]
      have hdrop : b.data.length + inc.length - b.capacity = b.data.length := by omega
      rw [hdrop]
      simp only [List.nil_append, List.length_nil, Nat.sub_zero]
      rw [List.take_of_length_le (by omega), List.drop_left]
    · rw [if_neg hall]
      have hlen : inc.length ≤
          b.capacity - (b.data.drop (b.data.length + inc.length - b.capacity)).length := by
        simp only [List.length_drop]
        omega
      rw [List.take_of_length_le hlen,
        List.drop_append_of_le_length (by omega)]
  · rw [if_neg hover]
    have hdrop0 : b.data.length + inc.length - b.capacity = 0 := by omega
    rw [hdrop0, List.drop_zero, List.take_of_length_le (by omega)]

theorem add_readings_incoming_exceeds (b : ReadingBuffer) (inc : List Reading)
    (hgt : b.capacity < inc.length) :
    (add_readings_to_buffer b inc).data = inc.take b.capacity := by
  have hne : inc.length ≠ 0 := by omega
  simp only [add_readings_to_buffer, if_neg hne]
  rw [if_pos (by omega), if_pos (by omega)]
  simp

/-- Claim C1, as stated, is false: when the incoming batch alone exceeds the
capacity, `add_readings_to_buffer` clears the buffer and then copies the
incoming readings from the front, so it keeps the oldest — not the most
recent — incoming readings.  Concretely, adding two readings to an empty
capacity-1 buffer keeps the first one, not the second. -/
theorem c1_counterexample :
    (add_readings_to_buffer ⟨1, []⟩ [⟨1, 10⟩, ⟨2, 20⟩]).data = [⟨1, 10⟩] ∧
    unsentSurvivorsSpec ⟨1, []⟩ [⟨1, 10⟩, ⟨2, 20⟩] = [⟨2, 20⟩] ∧
    (add_readings_to_buffer ⟨1, []⟩ [⟨1, 10⟩, ⟨2, 20⟩]).data ≠
      unsentSurvivorsSpec ⟨1, []⟩ [⟨1, 10⟩, ⟨2, 20⟩] := by
  decide

/-- Claim C1 (amended): for every well-formed prior buffer state and non-empty
incoming batch, after `add_readings_to_buffer` the count equals
`min capacity (priorCount + incomingCount)`; when the incoming batch fits the
capacity by itself, the surviving entries are exactly the most recent `count`
readings of the concatenation in original relative order; when the incoming
batch alone exceeds the capacity, the prior contents are discarded and the
FIRST `capacity` incoming readings survive (the newest incoming readings are
dropped). -/
theorem c1_add_readings_overflow_amended (b : ReadingBuffer) (inc : List Reading)
    (hwf : b.data.length ≤ b.capacity) (hne : inc.length ≠ 0) :
    (add_readings_to_buffer b inc).data.length =
      min b.capacity (b.data.length + inc.length) ∧
    (inc.length ≤ b.capacity →
      (add_readings_to_buffer b inc).data = unsentSurvivorsSpec b inc) ∧
    (b.capacity < inc.length →
      (add_readings_to_buffer b inc).data = inc.take b.capacity) :=
  ⟨add_readings_count_min b inc hwf,
   fun hle => by
     rw [unsentSurvivorsSpec_eq_drop]
     exact add_readings_keeps_recent b inc hwf hne hle,
   fun hgt => add_readings_incoming_exceeds b inc hgt⟩

/-- Witness for C1 (amended) at concrete inputs: a 3-capacity buffer holding
three readings receiving two more keeps the most recent three, and a
1-capacity buffer receiving two readings keeps `take 1` of the incoming
batch. -/
theorem c1_add_readings_overflow_amended_witness :
    (add_readings_to_buffer ⟨3, [⟨1, 1⟩, ⟨2, 2⟩, ⟨3, 3⟩]⟩ [⟨4, 4⟩, ⟨5, 5⟩]).data =
      unsentSurvivorsSpec ⟨3, [⟨1, 1⟩, ⟨2, 2⟩, ⟨3, 3⟩]⟩ [⟨4, 4⟩, ⟨5, 5⟩] ∧
    (add_readings_to_buffer ⟨1, []⟩ [⟨6, 6⟩, ⟨7, 7⟩]).data =
      [⟨6, 6⟩, ⟨7, 7⟩].take 1 :=
  ⟨(c1_add_readings_overflow_amended ⟨3, [⟨1, 1⟩, ⟨2, 2⟩, ⟨3, 3⟩]⟩ [⟨4, 4⟩, ⟨5, 5⟩]
      (by decide) (by decide)).2.1 (by decide),
   (c1_add_readings_overflow_amended ⟨1, []⟩ [⟨6, 6⟩, ⟨7, 7⟩]
      (by decide) (by decide)).2.2 (by decide)⟩

/-- Claim C3, as stated, is false: with a capacity-3 sample buffer, the fourth
sequential `add_sensor_reading` returns `BUFFER_RESULT_FULL` and leaves the
buffer holding the first three readings — nothing is flushed, the count does
not reset to 0, and the fourth reading does not occupy slot 0 (it is
dropped, per the documented policy in `should_drop_reading_when_full`). -/
theorem c3_counterexample :
    c3_final.1 = BufferResult.full ∧
    c3_final.2.data = [⟨1, 10⟩, ⟨2, 11⟩, ⟨3, 12⟩] ∧
    c3_final.2.data.length = 3 ∧
    c3_final.2.data.head? ≠ some ⟨4, 13⟩ := by
  decide

/-- Claim C3 (amended): with a capacity-3 sample buffer, the first three
appends succeed and store readings at slots 0, 1, 2; the fourth append
returns `BUFFER_RESULT_FULL` and leaves the buffer completely unchanged at
count 3 — the fourth reading is dropped and no flush to the persistent store
occurs. -/
theorem c3_full_buffer_drops_amended :
    c3_s1.1 = BufferResult.success ∧
    c3_s2.1 = BufferResult.success ∧
    c3_s3.1 = BufferResult.success ∧
    c3_s3.2.data = [⟨1, 10⟩, ⟨2, 11⟩, ⟨3, 12⟩] ∧
    c3_final = (BufferResult.full, c3_s3.2) := by
  decide

theorem applySensorOp_preserves (b : SensorBuffer) (op : SensorOp)
    (hwf : b.data.length ≤ b.capacity) :
    (applySensorOp b op).data.length ≤ (applySensorOp b op).capacity ∧
    (applySensorOp b op).capacity = b.capacity := by
  cases op with
  | add ts lux lockOk =>
    cases lockOk with
    | false => simpa [applySensorOp, add_sensor_reading] using hwf
    | true =>
      by_cases h : b.data.length < b.capacity
      · simp [applySensorOp, add_sensor_reading, h]
        omega
      · simpa [applySensorOp, add_sensor_reading, h] using hwf
  | drain => simp [applySensorOp, clear_sensor_buffer]

/-- Claim C9: when the sample buffer has space, `add_sensor_reading` (with the
lock acquired) stores the reading at index `count`, increments the count and
returns success; when it is full it returns `BUFFER_RESULT_FULL` and leaves
the buffer untouched; consequently, over any history of appends and drains
the count never exceeds the capacity. -/
theorem c9_sample_buffer_invariant (b : SensorBuffer) (ts lux : Int) :
    (b.data.length < b.capacity →
      add_sensor_reading b ts lux true =
        (BufferResult.success, { b with data := b.data ++ [⟨ts, lux⟩] })) ∧
    (b.capacity ≤ b.data.length →
      add_sensor_reading b ts lux true = (BufferResult.full, b)) ∧
    (∀ ops : List SensorOp, b.data.length ≤ b.capacity →
      (runSensorOps b ops).data.length ≤ (runSensorOps b ops).capacity) := by
  refine ⟨fun h => by simp [add_sensor_reading, h], fun h => by
    simp [add_sensor_reading, Nat.not_lt.mpr h], ?_⟩
  intro ops
  induction ops generalizing b with
  | nil => intro h; simpa [runSensorOps] using h
  | cons op rest ih =>
    intro h
    have hstep := applySensorOp_preserves b op h
    have := ih (applySensorOp b op) (by omega)
    simpa [runSensorOps] using this

/-- Witness for C9 at concrete inputs: a successful append, a rejected append
on a full buffer, and the invariant after a small history. -/
theorem c9_sample_buffer_invariant_witness :
    add_sensor_reading ⟨2, [⟨1, 1⟩]⟩ 5 6 true =
      (BufferResult.success, ⟨2, [⟨1, 1⟩, ⟨5, 6⟩]⟩) ∧
    add_sensor_reading ⟨1, [⟨1, 1⟩]⟩ 5 6 true = (BufferResult.full, ⟨1, [⟨1, 1⟩]⟩) ∧
    (runSensorOps ⟨1, []⟩
        [SensorOp.add 1 2 true, SensorOp.add 3 4 true, SensorOp.drain]).data.length ≤
      (runSensorOps ⟨1, []⟩
        [SensorOp.add 1 2 true, SensorOp.add 3 4 true, SensorOp.drain]).capacity :=
  ⟨((c9_sample_buffer_invariant ⟨2, [⟨1, 1⟩]⟩ 5 6).1 (by decide)).trans (by decide),
   ((c9_sample_buffer_invariant ⟨1, [⟨1, 1⟩]⟩ 5 6).2.1 (by decide)).trans (by decide),
   (c9_sample_buffer_invariant ⟨1, []⟩ 0 0).2.2
     [SensorOp.add 1 2 true, SensorOp.add 3 4 true, SensorOp.drain] (by decide)⟩

/-- Claim C10: with both the live buffer and the unsent buffer empty,
`process_data_send_cycle` returns `SEND_RESULT_NO_DATA`, makes no network
call at all, and leaves both buffers and the NTP bookkeeping unchanged. -/
theorem c10_no_data_frame (current unsent : ReadingBuffer) (now last_ntp_sync : Int)
    (net : NetworkModel)
    (hc : current.data.length = 0) (hu : unsent.data.length = 0) :
    process_data_send_cycle current unsent now last_ntp_sync net =
      ⟨SendResult.no_data, current, unsent, last_ntp_sync, []⟩ := by
  simp [process_data_send_cycle, hc, hu]

/-- Witness for C10: the empty-buffer cycle at concrete inputs. -/
theorem c10_no_data_frame_witness :
    process_data_send_cycle ⟨4, []⟩ ⟨4, []⟩ 100 50 c7_net =
      ⟨SendResult.no_data, ⟨4, []⟩, ⟨4, []⟩, 50, []⟩ :=
  c10_no_data_frame ⟨4, []⟩ ⟨4, []⟩ 100 50 c7_net rfl rfl

theorem retry_attempts_le (send : Nat → EspErr) (attempt fuel : Nat) :
    (retry_attempts send attempt fuel).2 ≤ fuel := by
  induction fuel generalizing attempt with
  | zero => simp [retry_attempts]
  | succ n ih =>
    simp only [retry_attempts]
    cases h : send attempt <;> simp <;> exact ih (attempt + 1)

/-- Claim C4: the send-with-retry operation makes at most 3 attempts; HTTP 400
maps to `ESP_ERR_INVALID_ARG` and 401/403 map to `ESP_ERR_NOT_ALLOWED`; an
attempt that returns one of those non-retryable errors stops the loop after
exactly that one failing attempt (so a retryable first failure followed by a
400/401/403 makes exactly two attempts); retryable outcomes (5xx mapped to
`ESP_ERR_INVALID_RESPONSE`, network failure mapped to `ESP_FAIL`) exhaust all
3 attempts before failure is reported. -/
theorem c4_retry_policy :
    (∀ send : Nat → EspErr,
      (send_sensor_data_with_retry send).2 ≤ MAX_HTTP_RETRY_ATTEMPTS) ∧
    http_status_to_err 400 = EspErr.invalid_arg ∧
    http_status_to_err 401 = EspErr.not_allowed ∧
    http_status_to_err 403 = EspErr.not_allowed ∧
    http_status_to_err 500 = EspErr.invalid_response ∧
    (∀ (send : Nat → EspErr) (attempt fuel : Nat),
      (send attempt = EspErr.invalid_arg ∨ send attempt = EspErr.not_allowed) →
      retry_attempts send attempt (fuel + 1) = (false, 1)) ∧
    (∀ send : Nat → EspErr,
      (send 1 = EspErr.invalid_response ∨ send 1 = EspErr.err_fail) →
      (send 2 = EspErr.invalid_arg ∨ send 2 = EspErr.not_allowed) →
      send_sensor_data_with_retry send = (false, 2)) ∧
    (∀ send : Nat → EspErr,
      (∀ k, 1 ≤ k → k ≤ 3 →
        (send k = EspErr.invalid_response ∨ send k = EspErr.err_fail)) →
      send_sensor_data_with_retry send = (false, 3)) := by
  refine ⟨fun send => retry_attempts_le send 1 MAX_HTTP_RETRY_ATTEMPTS,
    by decide, by decide, by decide, by decide, ?_, ?_, ?_⟩
  · intro send attempt fuel h
    rcases h with h | h <;> simp [retry_attempts, h]
  · intro send h1 h2
    rcases h1 with h1 | h1 <;> rcases h2 with h2 | h2 <;>
      simp [send_sensor_data_with_retry, MAX_HTTP_RETRY_ATTEMPTS, retry_attempts, h1, h2]
  · intro send h
    have h1 := h 1 (by norm_num) (by norm_num)
    have h2 := h 2 (by norm_num) (by norm_num)
    have h3 := h 3 (by norm_num) (by norm_num)
    rcases h1 with h1 | h1 <;> rcases h2 with h2 | h2 <;> rcases h3 with h3 | h3 <;>
      simp [send_sensor_data_with_retry, MAX_HTTP_RETRY_ATTEMPTS, retry_attempts, h1, h2, h3]

/-- Witness for C4 at concrete send oracles: persistent network failure uses
all 3 attempts; an immediate 400-class error stops after 1 attempt. -/
theorem c4_retry_policy_witness :
    send_sensor_data_with_retry (fun _ => EspErr.err_fail) = (false, 3) ∧
    retry_attempts (fun _ => EspErr.invalid_arg) 1 3 = (false, 1) := by
  constructor
  · exact c4_retry_policy.2.2.2.2.2.2.2 (fun _ => EspErr.err_fail)
      (fun k _ _ => Or.inr rfl)
  · exact c4_retry_policy.2.2.2.2.2.1 (fun _ => EspErr.invalid_arg) 1 2 (Or.inl rfl)

/-- Claim C5: `create_filtered_readings` keeps exactly the readings whose
timestamp lies in `[1704067200, now + 3600]`, preserving order; a timestamp-0
reading is dropped, a reading 2 hours in the future is dropped, a reading 60
seconds in the past is kept (once `now` itself is past the minimum epoch),
and an all-filtered batch makes `send_readings_processor` report success
without any send attempt. -/
theorem c5_filter_correctness (now : Int) (readings : List Reading) :
    create_filtered_readings now readings =
      readings.filter
        (fun r => decide (1704067200 ≤ r.timestamp) && decide (r.timestamp ≤ now + 3600)) ∧
    (∀ lux : Int, create_filtered_readings now [⟨0, lux⟩] = []) ∧
    (∀ lux : Int, create_filtered_readings now [⟨now + 7200, lux⟩] = []) ∧
    (1704067260 ≤ now →
      ∀ lux : Int, create_filtered_readings now [⟨now - 60, lux⟩] = [⟨now - 60, lux⟩]) ∧
    (∀ send : Nat → EspErr, create_filtered_readings now readings = [] →
      send_readings_processor readings now send = true) := by
  refine ⟨?_, ?_, ?_, ?_, ?_⟩
  · induction readings with
    | nil => simp [create_filtered_readings]
    | cons r rest ih =>
      by_cases h1 : r.timestamp < 1704067200
      · have : ¬ (1704067200 ≤ r.timestamp) := by omega
        simp [create_filtered_readings, h1, ih, List.filter_cons, this]
      · by_cases h2 : now + 3600 < r.timestamp
        · have : ¬ (r.timestamp ≤ now + 3600) := by omega
          simp [create_filtered_readings, h1, h2, ih, List.filter_cons, this]
        · have h1' : 1704067200 ≤ r.timestamp := by omega
          have h2' : r.timestamp ≤ now + 3600 := by omega
          simp [create_filtered_readings, h1, h2, ih, List.filter_cons, h1', h2']
  · intro lux
    norm_num [create_filtered_readings]
  · intro lux
    simp only [create_filtered_readings]
    split_ifs with h1 h2
    · rfl
    · rfl
    · omega
  · intro hnow lux
    simp only [create_filtered_readings]
    rw [if_neg (by omega), if_neg (by omega)]
  · intro send h
    simp [send_readings_processor, h]

/-- Witness for C5 at `now = 1704067260`: the timestamp-0 reading is dropped,
the 60-seconds-old reading is kept, and the all-filtered batch is a no-op
success. -/
theorem c5_filter_correctness_witness :
    create_filtered_readings 1704067260 [⟨0, 5⟩] = [] ∧
    create_filtered_readings 1704067260 [⟨1704067200, 7⟩] = [⟨1704067200, 7⟩] ∧
    send_readings_processor [⟨0, 5⟩] 1704067260 (fun _ => EspErr.err_fail) = true := by
  refine ⟨(c5_filter_correctness 1704067260 [⟨0, 5⟩]).2.1 5, ?_, ?_⟩
  · have h := (c5_filter_correctness 1704067260 []).2.2.2.1 (by norm_num) 7
    simpa using h
  · exact (c5_filter_correctness 1704067260 [⟨0, 5⟩]).2.2.2.2
      (fun _ => EspErr.err_fail) ((c5_filter_correctness 1704067260 [⟨0, 5⟩]).2.1 5)

theorem empty_store_represents : StoreRepresents empty_store [] := by
  constructor
  · rfl
  · intro i x h
    simp at h

theorem save_readings_represents (st : NvsStore) (bs : List (List Reading))
    (rs : List Reading) (hrep : StoreRepresents st bs) (hne : rs.length ≠ 0) :
    (persistent_storage_save_readings st rs).1 = EspErr.ok ∧
    StoreRepresents (persistent_storage_save_readings st rs).2 (bs ++ [rs]) := by
  obtain ⟨hcount, hbatch⟩ := hrep
  refine ⟨by simp [persistent_storage_save_readings, hne], ?_, ?_⟩
  · simp [persistent_storage_save_readings, hne, hcount]
  · intro i x hx
    simp only [persistent_storage_save_readings, if_neg hne, hcount]
    by_cases hieq : i = bs.length
    · subst hieq
      rw [List.getElem?_append_right (le_refl _)] at hx
      simp at hx
      simp [hx]
    · have hlen' : i < (bs ++ [rs]).length := (List.getElem?_eq_some.mp hx).1
      have hlt : i < bs.length := by
        simp at hlen'
        omega
      rw [List.getElem?_append_left hlt] at hx
      simp [hieq]
      exact hbatch i x hx

theorem save_all_represents (batchList : List (List Reading)) (st : NvsStore)
    (bs : List (List Reading)) (hrep : StoreRepresents st bs)
    (hall : ∀ b ∈ batchList, b.length ≠ 0) :
    StoreRepresents (save_all st batchList) (bs ++ batchList) := by
  induction batchList generalizing st bs with
  | nil => simpa [save_all] using hrep
  | cons b rest ih =>
    have h1 := save_readings_represents st bs b hrep (hall b (List.mem_cons_self b rest))
    have h2 := ih (persistent_storage_save_readings st b).2 (bs ++ [b]) h1.2
      (fun x hx => hall x (List.mem_cons_of_mem b hx))
    simpa [save_all, List.foldl_cons, List.append_assoc] using h2

theorem load_batches_represented (f : Nat → Option (List Reading)) (max_count : Nat) :
    ∀ (bs : List (List Reading)) (start : Nat) (acc : List Reading),
      (∀ (k : Nat) (x : List Reading), bs[k]? = some x → f (start + k) = some x) →
      acc.length + (bs.map List.length).sum ≤ max_count →
      load_batches f max_count (List.range' start bs.length) acc = acc ++ bs.flatten
  | [], start, acc, _, _ => by simp [load_batches]
  | b :: rest, start, acc, hf, hlen => by
    have hb : f start = some b := by
      have := hf 0 b (by simp)
      simpa using this
    have hsum : acc.length + b.length + (rest.map List.length).sum ≤ max_count := by
      simpa [Nat.add_assoc] using hlen
    have hrec := load_batches_represented f max_count rest (start + 1) (acc ++ b)
      (fun k x hk => by
        have := hf (k + 1) x (by simpa using hk)
        simpa [Nat.add_assoc, Nat.add_comm 1 k] using this)
      (by simpa using hsum)
    simp only [List.length_cons, List.range'_succ, load_batches, hb]
    rw [if_neg (by omega)]
    rw [hrec]
    simp

/-- Claim C6: starting from a fresh store, any sequence of
`persistent_storage_save_readings` calls (each batch non-empty, written under
`batch_N` with the counter read, incremented and stored) followed by
`persistent_storage_load_readings` with sufficient `max_count` yields exactly
the concatenation of all saved readings in save order. -/
theorem c6_save_load_roundtrip (batchList : List (List Reading)) (max_count : Nat)
    (hall : ∀ b ∈ batchList, b.length ≠ 0)
    (htotal : (batchList.map List.length).sum ≤ max_count) :
    persistent_storage_load_readings (save_all empty_store batchList) max_count =
      batchList.flatten := by
  have hrep := save_all_represents batchList empty_store [] empty_store_represents hall
  rw [List.nil_append] at hrep
  obtain ⟨hcount, hbatch⟩ := hrep
  unfold persistent_storage_load_readings
  cases hbc : (save_all empty_store batchList).batch_count with
  | none =>
    rw [hbc] at hcount
    simp at hcount
    have : batchList = [] := List.length_eq_zero.mp hcount.symm
    simp [this]
  | some n =>
    rw [hbc] at hcount
    simp at hcount
    subst hcount
    change load_batches (save_all empty_store batchList).batches max_count
      (List.range batchList.length) [] = batchList.flatten
    rw [List.range_eq_range']
    have := load_batches_represented (save_all empty_store batchList).batches max_count
      batchList 0 []
      (fun k x hk => by simpa using hbatch k x hk)
      (by simpa using htotal)
    simpa using this

/-- Witness for C6: two concrete batches round-trip through the store. -/
theorem c6_save_load_roundtrip_witness :
    persistent_storage_load_readings
        (save_all empty_store [[⟨1, 10⟩], [⟨2, 20⟩, ⟨3, 30⟩]]) 3 =
      [⟨1, 10⟩, ⟨2, 20⟩, ⟨3, 30⟩] := by
  have h := c6_save_load_roundtrip [[⟨1, 10⟩], [⟨2, 20⟩, ⟨3, 30⟩]] 3
    (by decide) (by decide)
  exact h.trans (by decide)

theorem load_batches_length_le (f : Nat → Option (List Reading)) (max_count : Nat) :
    ∀ (idxs : List Nat) (acc : List Reading), acc.length ≤ max_count →
      (load_batches f max_count idxs acc).length ≤ max_count := by
  intro idxs
  induction idxs with
  | nil => intro acc h; simpa [load_batches] using h
  | cons i rest ih =>
    intro acc h
    cases hf : f i with
    | none =>
      simp only [load_batches, hf]
      exact ih acc h
    | some b =>
      simp only [load_batches, hf]
      by_cases hbreak : max_count < acc.length + b.length
      · rw [if_pos hbreak]
        exact h
      · rw [if_neg hbreak]
        exact ih (acc ++ b) (by simp; omega)

/-- Claim C8: `persistent_storage_load_readings` visits batches `0 .. N-1` in
index order; a batch whose blob cannot be read is skipped and the loop
continues; the loop stops before loading any batch that would push the total
beyond `max_count`; and the number of loaded readings never exceeds
`max_count`. -/
theorem c8_load_readings_bounds :
    (∀ (st : NvsStore) (max_count : Nat),
      (persistent_storage_load_readings st max_count).length ≤ max_count) ∧
    (∀ (st : NvsStore) (n max_count : Nat), st.batch_count = some n →
      persistent_storage_load_readings st max_count =
        load_batches st.batches max_count (List.range n) []) ∧
    (∀ (f : Nat → Option (List Reading)) (max_count i : Nat) (rest : List Nat)
        (acc : List Reading), f i = none →
      load_batches f max_count (i :: rest) acc = load_batches f max_count rest acc) ∧
    (∀ (f : Nat → Option (List Reading)) (max_count i : Nat) (rest : List Nat)
        (acc b : List Reading), f i = some b → max_count < acc.length + b.length →
      load_batches f max_count (i :: rest) acc = acc) := by
  refine ⟨?_, ?_, ?_, ?_⟩
  · intro st max_count
    unfold persistent_storage_load_readings
    cases st.batch_count with
    | none => simp
    | some n => exact load_batches_length_le st.batches max_count (List.range n) [] (by simp)
  · intro st n max_count h
    unfold persistent_storage_load_readings
    rw [h]
  · intro f max_count i rest acc h
    simp [load_batches, h]
  · intro f max_count i rest acc b h hbreak
    simp [load_batches, h, hbreak]

/-- Witness for C8 on a concrete store whose middle batch is unreadable:
the loaded count respects the bound, the corrupt batch is skipped, and the
loop breaks before exceeding `max_count`. -/
theorem c8_load_readings_bounds_witness :
    (persistent_storage_load_readings c8_store 2).length ≤ 2 ∧
    load_batches c8_store.batches 2 (1 :: [2]) [⟨1, 1⟩] =
      load_batches c8_store.batches 2 [2] [⟨1, 1⟩] ∧
    load_batches c8_store.batches 2 (2 :: []) [⟨1, 1⟩] = [⟨1, 1⟩] :=
  ⟨c8_load_readings_bounds.1 c8_store 2,
   c8_load_readings_bounds.2.2.1 c8_store.batches 2 1 [2] [⟨1, 1⟩] (by decide),
   c8_load_readings_bounds.2.2.2 c8_store.batches 2 2 [] [⟨1, 1⟩] [⟨3, 3⟩, ⟨4, 4⟩]
     (by decide) (by decide)⟩

theorem add_readings_no_overflow (b : ReadingBuffer) (l : List Reading)
    (hcap : b.data.length + l.length ≤ b.capacity) :
    (add_readings_to_buffer b l).data = b.data ++ l := by
  by_cases hne : l.length = 0
  · have h0 : l = [] := List.length_eq_zero.mp hne
    subst h0
    simp [add_readings_to_buffer]
  · simp only [add_readings_to_buffer, if_neg hne]
    rw [if_neg (by omega), List.take_of_length_le (by omega)]

/-- Claim C2: when the send of the drained live readings fails during a send
cycle, those readings are pushed into the unsent buffer (they survive as a
suffix of it, assuming the buffer has room) rather than discarded, the live
buffer is cleared, the cycle reports `SEND_RESULT_SEND_FAILED`, and the task
loop records `wifi_send_failed = true` for that failed send. -/
theorem c2_send_failure_preserved (current unsent : ReadingBuffer)
    (now last_ntp_sync : Int) (net : NetworkModel)
    (hconn : net.is_connected = true ∨ net.connected_after_connect = true)
    (hcur : current.data.length ≠ 0)
    (hfail : net.send_ok current.data = false)
    (hcap : unsent.data.length + current.data.length ≤ unsent.capacity) :
    (process_data_send_cycle current unsent now last_ntp_sync net).result =
      SendResult.send_failed ∧
    (process_data_send_cycle current unsent now last_ntp_sync net).current.data = [] ∧
    current.data <:+
      (process_data_send_cycle current unsent now last_ntp_sync net).unsent.data ∧
    (∀ (st : NvsStore) (sendOk : List Reading → Bool), sendOk current.data = false →
      (task_send_cycle_connected false st current.data sendOk).1 = true) := by
  have hc0 : 0 < current.data.length := Nat.pos_of_ne_zero hcur
  have hcd : current.data ≠ [] := by
    intro h
    exact hcur (by simp [h])
  have hbranch2 : ¬(net.is_connected = false ∧ net.connected_after_connect = false) := by
    rcases hconn with h | h <;> simp [h]
  have key : ∀ u1 : ReadingBuffer, u1.capacity = unsent.capacity →
      u1.data.length ≤ unsent.data.length →
      current.data <:+ (add_readings_to_buffer u1 current.data).data := by
    intro u1 hcapeq hl
    rw [add_readings_no_overflow _ _ (by omega)]
    exact List.suffix_append _ _
  refine ⟨?_, ?_, ?_, ?_⟩
  · simp [process_data_send_cycle, hcd, hbranch2, hc0, hfail]
  · simp [process_data_send_cycle, hcd, hbranch2, hc0, hfail]
  · have hgoal :
        (process_data_send_cycle current unsent now last_ntp_sync net).unsent =
          add_readings_to_buffer
            (if 0 < unsent.data.length then
              (if net.send_ok unsent.data then { unsent with data := [] } else unsent)
            else unsent) current.data := by
      simp [process_data_send_cycle, hcd, hbranch2, hc0, hfail]
    rw [hgoal]
    split_ifs with h1 h2
    · exact key _ rfl (by simp)
    · exact key _ rfl (le_refl _)
    · exact key _ rfl (le_refl _)
  · intro st sendOk hfail2
    simp [task_send_cycle_connected, hc0, hfail2]

/-- Witness for C2: the sole live reading survives in the unsent buffer, the
cycle reports failure, and the task flag is set. -/
theorem c2_send_failure_preserved_witness :
    (process_data_send_cycle ⟨3, [⟨1, 1⟩]⟩ ⟨3, []⟩ 0 0 c2_net).result =
      SendResult.send_failed ∧
    (process_data_send_cycle ⟨3, [⟨1, 1⟩]⟩ ⟨3, []⟩ 0 0 c2_net).current.data = [] ∧
    [⟨1, 1⟩] <:+ (process_data_send_cycle ⟨3, [⟨1, 1⟩]⟩ ⟨3, []⟩ 0 0 c2_net).unsent.data ∧
    (task_send_cycle_connected false empty_store [⟨1, 1⟩] (fun _ => false)).1 = true := by
  have h := c2_send_failure_preserved ⟨3, [⟨1, 1⟩]⟩ ⟨3, []⟩ 0 0 c2_net
    (Or.inl rfl) (by decide) rfl (by decide)
  exact ⟨h.1, h.2.1, h.2.2.1, h.2.2.2 empty_store (fun _ => false) rfl⟩

/-- Claim C7, as stated, is false on the code: no single send cycle transmits
all three tiers.  With the persistent store, the unsent buffer and the live
buffer all non-empty, a successful `process_data_send_cycle` (the only cycle
that owns the unsent buffer; data_sender_core.c never calls into
persistent_storage.c, so the store is untouched by it) transmits only the
unsent readings and the live readings — the persisted readings are never
handed to `send_data`. -/
theorem c7_counterexample :
    persistent_storage_load_readings c7_store PERSISTENT_STORAGE_MAX_READINGS =
      [⟨100, 1⟩] ∧
    (process_data_send_cycle ⟨10, [⟨300, 3⟩]⟩ ⟨10, [⟨200, 2⟩]⟩ 1000 0 c7_net).result =
      SendResult.success ∧
    sendPayloads (process_data_send_cycle ⟨10, [⟨300, 3⟩]⟩ ⟨10, [⟨200, 2⟩]⟩ 1000 0
        c7_net).events =
      [[⟨200, 2⟩], [⟨300, 3⟩]] ∧
    NetEvent.send [⟨100, 1⟩] ∉
      (process_data_send_cycle ⟨10, [⟨300, 3⟩]⟩ ⟨10, [⟨200, 2⟩]⟩ 1000 0 c7_net).events := by
  decide

/-- Claim C7 (amended): each send cycle drains its tiers oldest-first —
`process_data_send_cycle` transmits the unsent-buffer readings strictly
before the live readings (and transmits nothing else), and the
`task_send_data` cycle transmits persisted-store readings strictly before
live readings; but no single cycle in the code transmits all three tiers. -/
theorem c7_tier_order_amended :
    (∀ (current unsent : ReadingBuffer) (now last_ntp_sync : Int) (net : NetworkModel),
      (net.is_connected = true ∨ net.connected_after_connect = true) →
      current.data.length ≠ 0 → unsent.data.length ≠ 0 →
      sendPayloads (process_data_send_cycle current unsent now last_ntp_sync net).events =
        [unsent.data, current.data]) ∧
    (∀ (wifi_send_failed : Bool) (st : NvsStore) (live : List Reading)
        (sendOk : List Reading → Bool),
      ∃ a b : Nat,
        eventTiers (task_send_cycle_connected wifi_send_failed st live sendOk).2.2.2 =
          List.replicate a Tier.persisted ++ List.replicate b Tier.live) := by
  constructor
  · intro current unsent now last_ntp_sync net hconn hcur hu
    have hc0 : 0 < current.data.length := Nat.pos_of_ne_zero hcur
    have hu0 : 0 < unsent.data.length := Nat.pos_of_ne_zero hu
    have hne1 : ¬(current.data.length = 0 ∧ unsent.data.length = 0) := fun h => hcur h.1
    have hbranch2 : ¬(net.is_connected = false ∧ net.connected_after_connect = false) := by
      rcases hconn with h | h <;> simp [h]
    simp only [process_data_send_cycle, if_neg hne1, if_neg hbranch2,
      if_pos hc0, if_pos hu0]
    simp only [sendPayloads, List.filterMap_append]
    split_ifs <;> simp [List.filterMap_cons]
  · intro wifi_send_failed st live sendOk
    cases wifi_send_failed with
    | false =>
      by_cases hlive : 0 < live.length
      · exact ⟨0, 1, by simp [task_send_cycle_connected, eventTiers, hlive]⟩
      · exact ⟨0, 0, by simp [task_send_cycle_connected, eventTiers, hlive]⟩
    | true =>
      by_cases hcnt : persistent_storage_get_count st = 0
      · by_cases hlive : 0 < live.length
        · exact ⟨0, 1, by
            simp [task_send_cycle_connected, send_stored_readings, eventTiers, hcnt, hlive]⟩
        · exact ⟨0, 0, by
            simp [task_send_cycle_connected, send_stored_readings, eventTiers, hcnt, hlive]⟩
      · by_cases hload :
          (persistent_storage_load_readings st PERSISTENT_STORAGE_MAX_READINGS).length = 0
        · by_cases hlive : 0 < live.length
          · exact ⟨0, 1, by
              simp [task_send_cycle_connected, send_stored_readings, eventTiers,
                hcnt, hload, hlive]⟩
          · exact ⟨0, 0, by
              simp [task_send_cycle_connected, send_stored_readings, eventTiers,
                hcnt, hload, hlive]⟩
        · by_cases hsend :
            sendOk (persistent_storage_load_readings st PERSISTENT_STORAGE_MAX_READINGS) = true
          · by_cases hlive : 0 < live.length
            · exact ⟨1, 1, by
                simp [task_send_cycle_connected, send_stored_readings, eventTiers,
                  hcnt, hload, hsend, hlive]⟩
            · exact ⟨1, 0, by
                simp [task_send_cycle_connected, send_stored_readings, eventTiers,
                  hcnt, hload, hsend, hlive]⟩
          · by_cases hlive : 0 < live.length
            · exact ⟨1, 1, by
                simp [task_send_cycle_connected, send_stored_readings, eventTiers,
                  hcnt, hload, hsend, hlive]⟩
            · exact ⟨1, 0, by
                simp [task_send_cycle_connected, send_stored_readings, eventTiers,
                  hcnt, hload, hsend, hlive]⟩

/-- Witness for C7 (amended): a concrete core cycle sends unsent then live
readings, and a concrete task cycle tags persisted before live. -/
theorem c7_tier_order_amended_witness :
    sendPayloads (process_data_send_cycle ⟨5, [⟨2, 2⟩]⟩ ⟨5, [⟨1, 1⟩]⟩ 0 0 c7_net).events =
      [[⟨1, 1⟩], [⟨2, 2⟩]] ∧
    (∃ a b : Nat,
      eventTiers (task_send_cycle_connected true c7_store [⟨9, 9⟩]
          (fun _ => true)).2.2.2 =
        List.replicate a Tier.persisted ++ List.replicate b Tier.live) :=
  ⟨c7_tier_order_amended.1 ⟨5, [⟨2, 2⟩]⟩ ⟨5, [⟨1, 1⟩]⟩ 0 0 c7_net (Or.inl rfl)
      (by decide) (by decide),
   c7_tier_order_amended.2 true c7_store [⟨9, 9⟩] (fun _ => true)⟩

end SunlightSensor
